import Mathlib

/-!
Verification of the browser controller of a local RAG (retrieval augmented
generation) chat application.  The JavaScript class RAGApp is shallowly
embedded: the DOM state the controller reads and writes is collected in the
structure RAGState, asynchronous fetch results are passed in as explicit
response values, and each method of the class becomes a state transformer.
The strict source variant (the file that shows a plain apology on failure)
is embedded as the primary model; the demo variant is embedded separately
where its behaviour differs (loadDocumentsDemo).

Modelling conventions:
- JavaScript strings are Lean String values (lists of characters); the
  regular expression replacements of formatMessageContent are implemented
  as left-to-right scans with the exact match/advance semantics of a global
  regex replace.
- escapeHtml delegates to the DOM (div.textContent / div.innerHTML); that
  serialization escapes the ampersand, the angle brackets and the no-break
  space, which is modelled character by character.
- formatFileSize uses Math.log / Math.pow / Math.round on doubles; the
  model computes the same quantities over exact naturals (floor logarithm
  base 1024, and round half up of 100 * bytes / 1024 ^ i), and renders the
  two-decimal value the way JavaScript prints such a number (trailing
  zeros trimmed).  sizes[i] for i outside the array is undefined, which
  stringifies to "undefined".
- Wall-clock artifacts (message timestamps, the Date.now() based DOM id of
  the typing indicator) are passed in as parameters.
-/

namespace RAGApp

/-- The backtick character, written via its code point. -/
def backtickChar : Char := Char.ofNat 96

/-- The no-break space character U+00A0. -/
def nbspChar : Char := Char.ofNat 160

/-- Whitespace for the JavaScript String.prototype.trim used by sendMessage
and the input listener (space, tab, line and form feeds, carriage return,
vertical tab, no-break space). -/
def isJsWhitespace (c : Char) : Bool :=
  c = ' ' || c = '\t' || c = '\n' || c = '\r' ||
  c = Char.ofNat 11 || c = Char.ofNat 12 || c = nbspChar

/-- Model of JavaScript value.trim(). -/
def jsTrim (s : String) : String :=
  String.mk (((s.toList.dropWhile isJsWhitespace).reverse.dropWhile isJsWhitespace).reverse)

/-- Character-level HTML escaping performed by escapeHtml via
div.textContent = text; div.innerHTML (the HTML fragment serialization of a
text node). -/
def escapeChar (c : Char) : List Char :=
  if c = '&' then ("&amp;".toList)
  else if c = '<' then ("&lt;".toList)
  else if c = '>' then ("&gt;".toList)
  else if c = nbspChar then ("&nbsp;".toList)
  else [c]

/-- escapeHtml on a character list. -/
def escapeHtmlList : List Char → List Char
  | [] => []
  | c :: rest => escapeChar c ++ escapeHtmlList rest

/-- The escapeHtml utility of the source (string interface). -/
def escapeHtml (s : String) : String :=
  String.mk (escapeHtmlList s.toList)

/-- A word character of the regex class backslash-w: ASCII letters, digits
and the underscore. -/
def wordChar (c : Char) : Bool :=
  c.isAlphanum || c = '_'

/-- Exact list equality on an initial segment. -/
def startsWithCS : List Char → List Char → Bool
  | [], _ => true
  | _ :: _, [] => false
  | p :: ps, c :: cs => p = c && startsWithCS ps cs

/-- Split a character list at the first occurrence of three consecutive
backticks (the lazy body capture of the fenced-code-block regex): returns
the part before the fence and the part after it. -/
def splitOnTicks : List Char → Option (List Char × List Char)
  | [] => none
  | c :: rest =>
      if c = backtickChar ∧ startsWithCS [backtickChar, backtickChar] rest then
        some ([], rest.drop 2)
      else
        (splitOnTicks rest).map (fun pr => (c :: pr.1, pr.2))

/-- Attempt to match the fenced code block regex at the head of the list:
three backticks, an optional greedy run of word characters, a newline, then
a lazy body closed by three backticks.  Returns the captured body and the
remainder after the match. -/
def tryCodeBlock : List Char → Option (List Char × List Char)
  | c1 :: c2 :: c3 :: rest =>
      if c1 = backtickChar ∧ c2 = backtickChar ∧ c3 = backtickChar then
        match rest.dropWhile wordChar with
        | c4 :: rest2 => if c4 = '\n' then splitOnTicks rest2 else none
        | [] => none
      else none
  | _ => none

/-- Attempt to match the inline code regex at the head of the list: one
backtick, a nonempty run of non-backticks, one backtick. -/
def tryInlineCode : List Char → Option (List Char × List Char)
  | c :: rest =>
      if c = backtickChar then
        let body := rest.takeWhile (fun x => !(x = backtickChar))
        match rest.dropWhile (fun x => !(x = backtickChar)) with
        | _ :: after => if body.isEmpty then none else some (body, after)
        | [] => none
      else none
  | [] => none

/-- Attempt to match the bold regex at the head of the list: two asterisks,
a nonempty run of non-asterisks, two asterisks. -/
def tryBold : List Char → Option (List Char × List Char)
  | c1 :: c2 :: rest =>
      if c1 = '*' ∧ c2 = '*' then
        let body := rest.takeWhile (fun x => !(x = '*'))
        match rest.dropWhile (fun x => !(x = '*')) with
        | d1 :: d2 :: after =>
            if body.isEmpty ∨ ¬(d1 = '*' ∧ d2 = '*') then none else some (body, after)
        | _ => none
      else none
  | _ => none

/-- Left-to-right global regex replace: at each position try the matcher;
on a match, emit the opening tag, the captured body and the closing tag and
resume after the match; on failure emit one character and advance.  The
fuel argument is instantiated with the length of the list, which always
suffices because every step consumes at least one character. -/
def scanReplace (fd : List Char → Option (List Char × List Char))
    (pre post : List Char) : Nat → List Char → List Char
  | 0, l => l
  | _ + 1, [] => []
  | f + 1, c :: rest =>
      (fd (c :: rest)).elim (c :: scanReplace fd pre post f rest)
        (fun pr => pre ++ pr.1 ++ post ++ scanReplace fd pre post f pr.2)

/-- The fenced code block replacement of formatMessageContent. -/
def replaceCodeBlocks (l : List Char) : List Char :=
  scanReplace tryCodeBlock ("<pre><code>".toList) ("</code></pre>".toList) l.length l

/-- The inline code replacement of formatMessageContent. -/
def replaceInlineCode (l : List Char) : List Char :=
  scanReplace tryInlineCode ("<code>".toList) ("</code>".toList) l.length l

/-- The bold replacement of formatMessageContent. -/
def replaceBold (l : List Char) : List Char :=
  scanReplace tryBold ("<strong>".toList) ("</strong>".toList) l.length l

/-- The newline replacement of formatMessageContent. -/
def replaceNewlines : List Char → List Char
  | [] => []
  | c :: rest => (if c = '\n' then ("<br>".toList) else [c]) ++ replaceNewlines rest

/-- The markup subset of formatMessageContent, applied (in source order) to
already escaped text: fenced code blocks, inline code, bold, line breaks. -/
def applyMarkup (l : List Char) : List Char :=
  replaceNewlines (replaceBold (replaceInlineCode (replaceCodeBlocks l)))

/-- The markup pass as a string transformer (the part of
formatMessageContent that runs after escapeHtml). -/
def markupPass (s : String) : String :=
  String.mk (applyMarkup s.toList)

/-- formatMessageContent of the source: escape the raw text first, then
apply the markup subset to the escaped text. -/
def formatMessageContent (s : String) : String :=
  String.mk (applyMarkup (escapeHtmlList s.toList))

/-- Fuelled floor logarithm: ilogAux fuel n computes the number of times n
can be divided by 1024 before dropping below 1024 (the model of
Math.floor(Math.log(bytes) / Math.log 1024) over exact naturals). -/
def ilogAux : Nat → Nat → Nat
  | 0, _ => 0
  | fuel + 1, n => if n < 1024 then 0 else ilogAux fuel (n / 1024) + 1

/-- Floor logarithm base 1024 (fuel instantiated with the argument, which
always suffices). -/
def ilog1024 (n : Nat) : Nat := ilogAux n n

/-- Render r hundredths the way JavaScript prints the number r / 100:
trailing zeros of the fractional part are trimmed. -/
def renderHundredths (r : Nat) : String :=
  if r % 100 = 0 then toString (r / 100)
  else if r % 10 = 0 then toString (r / 100) ++ "." ++ toString ((r % 100) / 10)
  else if r % 100 < 10 then toString (r / 100) ++ ".0" ++ toString (r % 100)
  else toString (r / 100) ++ "." ++ toString (r % 100)

/-- The sizes array of formatFileSize. -/
def sizeUnits : List String := ["Bytes", "KB", "MB", "GB"]

/-- formatFileSize of the source.  For nonzero bytes it scales by the floor
power of 1024 and rounds to two decimals (Math.round(x * 100) / 100 is
round half up of 100 x, modelled exactly as (200 b + p) / (2 p) in natural
division); an index beyond the sizes array yields the unit "undefined". -/
def formatFileSize (bytes : Nat) : String :=
  if bytes = 0 then ("0 Bytes")
  else
    let i := ilog1024 bytes
    let p := 1024 ^ i
    renderHundredths ((200 * bytes + p) / (2 * p)) ++ " " ++ sizeUnits.getD i ("undefined")

/-- Message roles. -/
inductive Role
  | user
  | assistant
deriving DecidableEq

/-- A source citation object as received from the query endpoint. -/
structure SourceJson where
  source : Option String
  page : Option String
  uploadDate : Option String
  links : Option String
deriving DecidableEq

/-- One child of the chatMessages container: either a rendered message
(with its formatted text and attached sources) or the typing indicator
identified by its DOM id. -/
inductive ChatEntry
  | message (role : Role) (renderedText : String) (sources : List SourceJson)
  | typing (domId : String)
deriving DecidableEq

/-- A document of the catalog. -/
structure Doc where
  id : Nat
  name : String
  type : String
  size : Nat
  chunks : Nat
deriving DecidableEq

/-- Rendering of the documentsList region: the fixed empty-state markup or
the list of document items. -/
inductive ListRendering
  | emptyState
  | items (docs : List Doc)
deriving DecidableEq

/-- The stats object of the documents endpoint (fields may be absent). -/
structure StatsPayload where
  chunks : Option Nat
  embeddings : Option Nat
deriving DecidableEq

/-- The state of the RAGApp controller: its fields plus the DOM state it
reads and writes.  queriesSent logs the query requests that were issued. -/
structure RAGState where
  documents : List Doc
  isSystemReady : Bool
  userInputValue : String
  sendBtnDisabled : Bool
  welcomeVisible : Bool
  chatMessages : List ChatEntry
  queriesSent : List String
  docCountText : String
  rendering : ListRendering
  chunksCount : Nat
  embeddingsCount : Nat
  toasts : List String
  statusClass : String
  statusText : String
deriving DecidableEq

/-- Recognize the typing indicator. -/
def isTyping : ChatEntry → Bool
  | .typing _ => true
  | .message _ _ _ => false

/-- Recognize the typing indicator carrying a given DOM id. -/
def isTypingId (e : ChatEntry) (domId : String) : Bool :=
  match e with
  | .typing i => i == domId
  | .message _ _ _ => false

/-- Number of typing indicators in the message container. -/
def typingCount (l : List ChatEntry) : Nat := l.countP isTyping

/-- Number of typing indicators with a given DOM id. -/
def typingIdCount (l : List ChatEntry) (domId : String) : Nat :=
  l.countP (fun e => isTypingId e domId)

/-- Whether some typing indicator with the given DOM id is present. -/
def hasTypingId (l : List ChatEntry) (domId : String) : Bool :=
  l.any (fun e => isTypingId e domId)

/-- addMessage: append a message rendered through formatMessageContent with
its sources (the wall-clock timestamp is presentational and omitted). -/
def addMessage (l : List ChatEntry) (role : Role) (content : String)
    (sources : List SourceJson) : List ChatEntry :=
  l ++ [ChatEntry.message role (formatMessageContent content) sources]

/-- addTypingIndicator: append the typing indicator; its DOM id (built from
Date.now() in the source) is passed in. -/
def addTypingIndicator (l : List ChatEntry) (domId : String) : List ChatEntry :=
  l ++ [ChatEntry.typing domId]

/-- removeTypingIndicator: document.getElementById finds the first element
with the id, and element.remove() detaches it; if no element has the id
nothing happens. -/
def removeTypingIndicator (l : List ChatEntry) (domId : String) : List ChatEntry :=
  match l with
  | [] => []
  | e :: rest => if isTypingId e domId then rest else e :: removeTypingIndicator rest domId

/-- Outcome of the query fetch: a well-formed success body, a well-formed
body with success false, or a transport/parse error. -/
inductive QueryResponse
  | success (answer : String) (sources : List SourceJson)
  | failure (message : Option String)
  | transportError
deriving DecidableEq

/-- The apology text of the strict variant. -/
def apologyText : String := "Sorry, I encountered an error while processing your request."

/-- The synchronous first part of sendMessage, up to issuing the query request:
the guard (empty trimmed input or system not ready returns without any
effect), hiding the welcome screen, appending the user message, clearing
the input, disabling the send button, inserting the typing indicator and
issuing the request. -/
def sendMessageStart (st : RAGState) (typingId : String) : Option RAGState :=
  let message := jsTrim st.userInputValue
  if message = "" ∨ st.isSystemReady = false then none
  else
    some
      { st with
        welcomeVisible := false,
        chatMessages :=
          (addTypingIndicator (addMessage st.chatMessages Role.user message []) typingId),
        userInputValue := "",
        sendBtnDisabled := true,
        queriesSent := st.queriesSent ++ [message] }

/-- The continuation of sendMessage once the query settles.  On success the
indicator is removed and the answer appended; on a success:false body the
indicator is removed, the branch throws, and the catch removes it again (a
no-op) and appends the apology; on a transport error the catch removes the
indicator and appends the apology. -/
def sendMessageComplete (st : RAGState) (typingId : String) (res : QueryResponse) : RAGState :=
  match res with
  | .success answer sources =>
      { st with chatMessages :=
          (addMessage (removeTypingIndicator st.chatMessages typingId) Role.assistant answer
            sources) }
  | .failure _ =>
      { st with chatMessages :=
          (addMessage
            (removeTypingIndicator (removeTypingIndicator st.chatMessages typingId) typingId)
            Role.assistant apologyText []) }
  | .transportError =>
      { st with chatMessages :=
          (addMessage (removeTypingIndicator st.chatMessages typingId) Role.assistant
            apologyText []) }

/-- One whole chat turn of sendMessage. -/
def sendMessage (st : RAGState) (typingId : String) (res : QueryResponse) : RAGState :=
  (sendMessageStart st typingId).elim st (fun st1 => sendMessageComplete st1 typingId res)

/-- The input event listener: it stores the new value and recomputes the
disabled state of the send button from the trimmed value and readiness. -/
def handleInputEvent (st : RAGState) (newValue : String) : RAGState :=
  { st with
    userInputValue := newValue,
    sendBtnDisabled :=
      (if jsTrim newValue = "" ∨ st.isSystemReady = false then true else false) }

/-- Outcome of the status fetch. -/
inductive StatusResponse
  | ready
  | notReady (message : Option String)
  | transportError
deriving DecidableEq

/-- updateSystemStatus: sets the indicator class (the class suffix from the
statusClasses map is passed in already mapped) and the status text. -/
def updateSystemStatus (st : RAGState) (cls text : String) : RAGState :=
  { st with statusClass := "status-indicator " ++ cls, statusText := text }

/-- checkSystemStatus of the strict variant.  Besides the successor state it
returns the delay of the timeout it schedules, if any: a non-ready response
re-arms exactly one retry after 2000 ms, a ready response enables the chat
and schedules nothing, a transport error shows a toast and schedules
nothing. -/
def checkSystemStatus (st : RAGState) (res : StatusResponse) : RAGState × Option Nat :=
  match res with
  | .ready =>
      let st1 := updateSystemStatus st ("ready") ("System Ready")
      ({ st1 with isSystemReady := true, sendBtnDisabled := false }, none)
  | .notReady msg =>
      (updateSystemStatus st ("") (msg.getD ("Initializing...")), some 2000)
  | .transportError =>
      let st1 := updateSystemStatus st ("error") ("Connection Error")
      ({ st1 with toasts := st1.toasts ++ ["Unable to connect to backend server"] }, none)

/-- Outcome of the documents fetch: a parsed body (whose documents field may
be absent, modelled by the Option) or a transport/parse error. -/
inductive DocsResponse
  | success (documents : Option (List Doc)) (stats : Option StatsPayload)
  | transportError
deriving DecidableEq

/-- updateStats of the strict variant: an explicitly present counter is
displayed as is (zero included); an absent field or absent stats object
displays zero.  The rendered text is the counter value (toLocaleString is
presentational). -/
def updateStats (st : RAGState) (stats : Option StatsPayload) : RAGState :=
  match stats with
  | some s0 =>
      { st with chunksCount := s0.chunks.getD 0, embeddingsCount := s0.embeddings.getD 0 }
  | none => { st with chunksCount := 0, embeddingsCount := 0 }

/-- updateDocumentsList: recomputes the count label (plural s exactly when
the length differs from one) and renders either the fixed empty state or
the document items. -/
def updateDocumentsList (st : RAGState) : RAGState :=
  let n := st.documents.length
  { st with
    docCountText := toString n ++ " Document" ++ (if n ≠ 1 then ("s") else ("")),
    rendering := if n = 0 then ListRendering.emptyState else ListRendering.items st.documents }

/-- loadDocuments of the strict variant: on success the catalog is replaced
(an absent documents field becomes the empty list), the list re-rendered
and the stats replaced; on failure only the stats are zeroed - the document
list, its rendering and the toasts are left untouched. -/
def loadDocuments (st : RAGState) (res : DocsResponse) : RAGState :=
  match res with
  | .success docs stats => updateStats (updateDocumentsList { st with documents := docs.getD [] }) stats
  | .transportError => updateStats st (some ⟨some 0, some 0⟩)

/-- getDemoDocuments of the demo variant. -/
def getDemoDocuments : List Doc :=
  [⟨1, "Project Documentation.pdf", "pdf", 2458624, 45⟩,
   ⟨2, "Research Paper.pdf", "pdf", 5823441, 82⟩]

/-- loadDocuments of the demo variant: on failure the catalog is replaced by
locally generated demo documents, re-rendered, and the stats zeroed. -/
def loadDocumentsDemo (st : RAGState) (res : DocsResponse) : RAGState :=
  match res with
  | .success docs stats => updateStats (updateDocumentsList { st with documents := docs.getD [] }) stats
  | .transportError =>
      updateStats (updateDocumentsList { st with documents := getDemoDocuments })
        (some ⟨some 0, some 0⟩)

/-- The state right after construction and initial DOM wiring: no
documents, system not ready, chat empty, send button shipped disabled. -/
def baseState : RAGState where
  documents := []
  isSystemReady := false
  userInputValue := ""
  sendBtnDisabled := true
  welcomeVisible := true
  chatMessages := []
  queriesSent := []
  docCountText := "0 Documents"
  rendering := ListRendering.emptyState
  chunksCount := 0
  embeddingsCount := 0
  toasts := []
  statusClass := "status-indicator "
  statusText := ""

/-- A character carrying neither HTML-significant escaping nor any markup
token of the formatter (backtick, newline; asterisks are handled by
noBoldTok). -/
def plainChar (c : Char) : Bool :=
  !(c == '&' || c == '<' || c == '>' || c == nbspChar || c == backtickChar || c == '\n')

/-- No two consecutive asterisks (no bold marker) in the list. -/
def noBoldTok : List Char → Bool
  | [] => true
  | [_] => true
  | c1 :: c2 :: rest => !(c1 == '*' && c2 == '*') && noBoldTok (c2 :: rest)

/-- Whether the list contains a backtick. -/
def containsTick (l : List Char) : Bool := l.any (fun c => c == backtickChar)

/-- The markup tokens of the formatter are absent: no backtick (hence no
fenced code block and no inline code span) and no bold marker. -/
def noMarkupTokens (s : String) : Bool :=
  !(containsTick s.toList) && noBoldTok s.toList

/-- Substring test on character lists. -/
def hasSubList (pat : List Char) : List Char → Bool
  | [] => startsWithCS pat []
  | c :: rest => startsWithCS pat (c :: rest) || hasSubList pat rest

/-- Suffix test on character lists. -/
def endsWithList (pat l : List Char) : Bool := startsWithCS pat.reverse l.reverse

/-- The sample raw text of the escaping property. -/
def rawHtmlSample : String := "<b>hi</b>"

/-- The sample bold markup of the escaping property. -/
def boldSample : String := "**hi**"

/-- A ready state whose input is whitespace only. -/
def c2Pre : RAGState :=
  { baseState with isSystemReady := true, userInputValue := "   " }

/-- A ready state with a nonempty input and an empty chat. -/
def c3Pre : RAGState :=
  { baseState with isSystemReady := true, userInputValue := "hi" }

/-- A ready state with a nonempty input and the send button enabled. -/
def c4Pre : RAGState :=
  { baseState with isSystemReady := true, userInputValue := "hello", sendBtnDisabled := false }

/-- A sample document of the catalog. -/
def c8Doc : Doc :=
  { id := 7, name := "spec.pdf", type := "pdf", size := 1024, chunks := 3 }

/-- A state whose catalog holds one rendered document. -/
def c8Pre : RAGState :=
  { baseState with
    documents := [c8Doc],
    rendering := ListRendering.items [c8Doc],
    docCountText := "1 Document",
    chunksCount := 3,
    embeddingsCount := 3 }

/-- The failure policy asserted of loadDocuments: either the catalog is
reset to empty with zeroed stats and the empty-state rendering, or the
previous cache is kept while a user-visible notification is surfaced. -/
def claimC8Policy (pre post : RAGState) : Prop :=
  (post.documents = [] ∧ post.rendering = ListRendering.emptyState ∧
    post.chunksCount = 0 ∧ post.embeddingsCount = 0) ∨
  (post.documents = pre.documents ∧ post.rendering = pre.rendering ∧
    pre.toasts.length < post.toasts.length)

/-- The monitor state and scheduled retry after a first non-ready status
response from the freshly constructed controller. -/
def c6Step1 : RAGState × Option Nat :=
  checkSystemStatus baseState (StatusResponse.notReady (some ("initializing")))

/-- A chat container holding exactly one typing indicator. -/
def c10List : List ChatEntry := [ChatEntry.typing ("t1")]

/-- A scan replace is the identity on lists satisfying a tail-closed
predicate on which the matcher never fires. -/
theorem scanReplace_eq_self (fd : List Char → Option (List Char × List Char))
    (pre post : List Char) (P : List Char → Bool)
    (hfd : ∀ l, P l = true → fd l = none)
    (htail : ∀ c l, P (c :: l) = true → P l = true) :
    ∀ (f : Nat) (l : List Char), P l = true → scanReplace fd pre post f l = l := by
  intro f l
  induction l generalizing f with
  | nil => intro _; cases f <;> rfl
  | cons c rest ih =>
      intro h
      cases f with
      | zero => rfl
      | succ f1 =>
          simp only [scanReplace]
          rw [hfd _ h]
          simp only [Option.elim]
          rw [ih f1 (htail _ _ h)]

/-- The fenced code block matcher never fires without a backtick. -/
theorem tryCodeBlock_eq_none {l : List Char} (h : l.all plainChar = true) :
    tryCodeBlock l = none := by
  match l with
  | [] => rfl
  | [_] => rfl
  | [_, _] => rfl
  | c1 :: c2 :: c3 :: rest =>
      have h1 : plainChar c1 = true := by
        simp only [List.all_cons, Bool.and_eq_true] at h
        exact h.1
      have hc : ¬(c1 = backtickChar ∧ c2 = backtickChar ∧ c3 = backtickChar) := by
        intro hcc
        rw [hcc.1] at h1
        exact absurd h1 (by decide)
      simp [tryCodeBlock, hc]

/-- The inline code matcher never fires without a backtick. -/
theorem tryInlineCode_eq_none {l : List Char} (h : l.all plainChar = true) :
    tryInlineCode l = none := by
  match l with
  | [] => rfl
  | c :: rest =>
      have h1 : plainChar c = true := by
        simp only [List.all_cons, Bool.and_eq_true] at h
        exact h.1
      have hc : ¬(c = backtickChar) := by
        intro hcc
        rw [hcc] at h1
        exact absurd h1 (by decide)
      simp [tryInlineCode, hc]

/-- The bold matcher never fires without a double asterisk. -/
theorem tryBold_eq_none {l : List Char} (h : noBoldTok l = true) :
    tryBold l = none := by
  match l with
  | [] => rfl
  | [_] => rfl
  | c1 :: c2 :: rest =>
      have h1 : ¬(c1 = '*' ∧ c2 = '*') := by
        simp only [noBoldTok, Bool.and_eq_true, Bool.not_eq_true'] at h
        intro hcc
        rw [hcc.1, hcc.2] at h
        exact absurd h.1 (by decide)
      simp [tryBold, h1]

/-- Plainness is closed under taking the tail. -/
theorem allPlain_tail {c : Char} {l : List Char} (h : (c :: l).all plainChar = true) :
    l.all plainChar = true := by
  simp only [List.all_cons, Bool.and_eq_true] at h
  exact h.2

/-- Absence of bold markers is closed under taking the tail. -/
theorem noBoldTok_tail {c : Char} {l : List Char} (h : noBoldTok (c :: l) = true) :
    noBoldTok l = true := by
  match l with
  | [] => rfl
  | c2 :: rest =>
      simp only [noBoldTok, Bool.and_eq_true] at h
      exact h.2

/-- Escaping is the identity on plain characters. -/
theorem escapeHtmlList_eq_self {l : List Char} (h : l.all plainChar = true) :
    escapeHtmlList l = l := by
  induction l with
  | nil => rfl
  | cons c rest ih =>
      simp only [List.all_cons, Bool.and_eq_true] at h
      have h1 := h.1
      have hAmp : ¬(c = '&') := by
        intro hq; rw [hq] at h1; exact absurd h1 (by decide)
      have hLt : ¬(c = '<') := by
        intro hq; rw [hq] at h1; exact absurd h1 (by decide)
      have hGt : ¬(c = '>') := by
        intro hq; rw [hq] at h1; exact absurd h1 (by decide)
      have hNb : ¬(c = nbspChar) := by
        intro hq; rw [hq] at h1; exact absurd h1 (by decide)
      simp only [escapeHtmlList, escapeChar, if_neg hAmp, if_neg hLt, if_neg hGt, if_neg hNb]
      rw [ih h.2]
      rfl

/-- The newline replacement is the identity on plain characters. -/
theorem replaceNewlines_eq_self {l : List Char} (h : l.all plainChar = true) :
    replaceNewlines l = l := by
  induction l with
  | nil => rfl
  | cons c rest ih =>
      simp only [List.all_cons, Bool.and_eq_true] at h
      have h1 := h.1
      have hNl : ¬(c = '\n') := by
        intro hq; rw [hq] at h1; exact absurd h1 (by decide)
      simp only [replaceNewlines, if_neg hNl]
      rw [ih h.2]
      rfl

/-- On text with only plain characters and no bold marker the whole
formatter pipeline is the identity. -/
theorem applyMarkup_escape_eq_self {l : List Char} (hp : l.all plainChar = true)
    (hb : noBoldTok l = true) : applyMarkup (escapeHtmlList l) = l := by
  rw [escapeHtmlList_eq_self hp]
  have h1 : replaceCodeBlocks l = l := by
    unfold replaceCodeBlocks
    exact scanReplace_eq_self tryCodeBlock _ _ (fun l0 => l0.all plainChar)
      (fun _ h0 => tryCodeBlock_eq_none h0) (fun _ _ h0 => allPlain_tail h0) l.length l hp
  have h2 : replaceInlineCode l = l := by
    unfold replaceInlineCode
    exact scanReplace_eq_self tryInlineCode _ _ (fun l0 => l0.all plainChar)
      (fun _ h0 => tryInlineCode_eq_none h0) (fun _ _ h0 => allPlain_tail h0) l.length l hp
  have h3 : replaceBold l = l := by
    unfold replaceBold
    exact scanReplace_eq_self tryBold _ _ noBoldTok
      (fun _ h0 => tryBold_eq_none h0) (fun _ _ h0 => noBoldTok_tail h0) l.length l hb
  unfold applyMarkup
  rw [h1, h2, h3, replaceNewlines_eq_self hp]

/-- On strings with only plain characters and no bold marker the formatter
returns its input unchanged. -/
theorem formatMessageContent_eq_self (s : String) (hp : s.toList.all plainChar = true)
    (hb : noBoldTok s.toList = true) : formatMessageContent s = s := by
  obtain ⟨d⟩ := s
  unfold formatMessageContent
  rw [applyMarkup_escape_eq_self hp hb]
  rfl

/-- C1: formatMessageContent escapes the raw text first and only then
applies the markup subset to the escaped text; in particular the raw text
of rawHtmlSample never yields an unescaped b tag in the output, while the
double-asterisk markup of boldSample renders as a strong span. -/
theorem c1_escape_before_markup :
    (∀ s : String, formatMessageContent s = markupPass (escapeHtml s)) ∧
    hasSubList (("<b>").toList) ((formatMessageContent rawHtmlSample).toList) = false ∧
    formatMessageContent boldSample = "<strong>hi</strong>" :=
  ⟨fun _ => rfl, by decide, by decide⟩

/-- C7 counterexample: the input consisting of a single ampersand contains
no markup token, yet applying formatMessageContent twice differs from
applying it once (the escaped ampersand is escaped again). -/
theorem c7_counterexample :
    noMarkupTokens ("&") = true ∧
    ¬(formatMessageContent (formatMessageContent ("&")) = formatMessageContent ("&")) := by
  decide

/-- C7 (amended): the formatter is pure by construction and idempotent on
inputs that contain no markup token and additionally no HTML-significant
character and no newline: on such inputs it is the identity, hence
applying it twice equals applying it once. -/
theorem c7_idempotent_on_plain (s : String) (hp : s.toList.all plainChar = true)
    (hb : noBoldTok s.toList = true) :
    formatMessageContent (formatMessageContent s) = formatMessageContent s := by
  rw [formatMessageContent_eq_self s hp hb]
  exact formatMessageContent_eq_self s hp hb

/-- C7 witness: a concrete plain input on which the amended idempotence
theorem applies. -/
theorem c7_witness :
    (("hello world".toList.all plainChar = true) ∧
      (noBoldTok ("hello world".toList) = true)) ∧
    formatMessageContent (formatMessageContent ("hello world")) =
      formatMessageContent ("hello world") :=
  ⟨⟨by decide, by decide⟩, c7_idempotent_on_plain ("hello world") (by decide) (by decide)⟩

/-- The fuelled floor logarithm brackets its argument between consecutive
powers of 1024 whenever the fuel covers the argument. -/
theorem ilogAux_bracket :
    ∀ (fuel n : Nat), 1 ≤ n → n ≤ fuel →
      1024 ^ ilogAux fuel n ≤ n ∧ n < 1024 ^ (ilogAux fuel n + 1) := by
  intro fuel
  induction fuel with
  | zero => intro n h1 h0; omega
  | succ f ih =>
      intro n h1 hle
      by_cases hsmall : n < 1024
      · simp only [ilogAux, if_pos hsmall, pow_zero, pow_one]
        omega
      · have h1024 : 1024 ≤ n := by omega
        have hdivpos : 1 ≤ n / 1024 := (Nat.one_le_div_iff (by norm_num)).mpr h1024
        have hdivlt : n / 1024 < n := Nat.div_lt_self (by omega) (by norm_num)
        have hdivle : n / 1024 ≤ f := by omega
        have IH := ih (n / 1024) hdivpos hdivle
        simp only [ilogAux, if_neg hsmall]
        constructor
        · calc 1024 ^ (ilogAux f (n / 1024) + 1)
              = 1024 ^ ilogAux f (n / 1024) * 1024 := by rw [pow_succ]
            _ ≤ n / 1024 * 1024 := Nat.mul_le_mul_right _ IH.1
            _ ≤ n := Nat.div_mul_le_self n 1024
        · have h2 := (Nat.div_lt_iff_lt_mul (by norm_num : 0 < 1024)).mp IH.2
          calc n < 1024 ^ (ilogAux f (n / 1024) + 1) * 1024 := h2
            _ = 1024 ^ (ilogAux f (n / 1024) + 1 + 1) := by ring

/-- The floor logarithm base 1024 brackets a positive argument between
consecutive powers of 1024. -/
theorem ilog1024_bracket (n : Nat) (h : 1 ≤ n) :
    1024 ^ ilog1024 n ≤ n ∧ n < 1024 ^ (ilog1024 n + 1) :=
  ilogAux_bracket n n h le_rfl

/-- C5 counterexample: at one terabyte (1024 ^ 4 bytes) the size index
leaves the sizes array, so the rendered unit is the string "undefined"
rather than one of Bytes, KB, MB, GB. -/
theorem c5_counterexample :
    formatFileSize (1024 ^ 4) = "1 undefined" ∧
    (sizeUnits.any (fun u =>
      endsWithList ((" " ++ u).toList) ((formatFileSize (1024 ^ 4)).toList))) = false := by
  decide

/-- C5 (amended): formatFileSize maps 0 to "0 Bytes", 1024 to "1 KB" and
1536 to "1.5 KB"; and for every positive byte count below 1024 ^ 4 it picks
the index i with 1024 ^ i <= bytes < 1024 ^ (i + 1), renders the value
scaled by 1024 ^ i rounded to two decimals, and appends a unit drawn from
Bytes, KB, MB, GB. -/
theorem c5_file_size_spec :
    formatFileSize 0 = "0 Bytes" ∧ formatFileSize 1024 = "1 KB" ∧
    formatFileSize 1536 = "1.5 KB" ∧
    ∀ b : Nat, 0 < b → b < 1024 ^ 4 →
      ∃ i : Nat, i ≤ 3 ∧ 1024 ^ i ≤ b ∧ b < 1024 ^ (i + 1) ∧
        formatFileSize b =
          renderHundredths ((200 * b + 1024 ^ i) / (2 * 1024 ^ i)) ++ " " ++
            sizeUnits.getD i ("undefined") ∧
        sizeUnits.getD i ("undefined") ∈ sizeUnits := by
  refine ⟨by decide, by decide, by decide, ?_⟩
  intro b hb hb4
  obtain ⟨hlow, hhigh⟩ := ilog1024_bracket b hb
  have hi3 : ilog1024 b ≤ 3 := by
    by_contra hgt
    have h4 : 4 ≤ ilog1024 b := by omega
    have : (1024 : Nat) ^ 4 ≤ 1024 ^ ilog1024 b := Nat.pow_le_pow_right (by norm_num) h4
    omega
  refine ⟨ilog1024 b, hi3, hlow, hhigh, ?_, ?_⟩
  · simp only [formatFileSize, if_neg (by omega : ¬ b = 0)]
  · have : ilog1024 b = 0 ∨ ilog1024 b = 1 ∨ ilog1024 b = 2 ∨ ilog1024 b = 3 := by omega
    rcases this with h | h | h | h <;> rw [h] <;> decide

/-- C5 witness: the amended theorem applied at a concrete byte count. -/
theorem c5_witness :
    ((0 : Nat) < 2500000 ∧ (2500000 : Nat) < 1024 ^ 4) ∧
    (∃ i : Nat, i ≤ 3 ∧ 1024 ^ i ≤ 2500000 ∧ (2500000 : Nat) < 1024 ^ (i + 1) ∧
      formatFileSize 2500000 =
        renderHundredths ((200 * 2500000 + 1024 ^ i) / (2 * 1024 ^ i)) ++ " " ++
          sizeUnits.getD i ("undefined") ∧
      sizeUnits.getD i ("undefined") ∈ sizeUnits) :=
  ⟨⟨by decide, by decide⟩, c5_file_size_spec.2.2.2 2500000 (by decide) (by decide)⟩

/-- A non-typing entry is not a typing indicator for any id. -/
theorem isTypingId_false_of_isTyping_false {e : ChatEntry} {domId : String}
    (h : isTyping e = false) : isTypingId e domId = false := by
  cases e with
  | message r t s => rfl
  | typing i => exact absurd h (by simp [isTyping])

/-- A container without typing indicators has none with any given id. -/
theorem hasTypingId_false_of_typingCount_zero {l : List ChatEntry} (domId : String)
    (h : typingCount l = 0) : hasTypingId l domId = false := by
  simp only [typingCount, List.countP_eq_zero] at h
  simp only [hasTypingId, List.any_eq_false]
  intro e he
  have h1 := h e he
  have h2 : isTyping e = false := by
    revert h1; cases isTyping e <;> simp
  simp [isTypingId_false_of_isTyping_false h2]

/-- Removing an id that is not present changes nothing. -/
theorem removeTypingIndicator_noop {l : List ChatEntry} {domId : String}
    (h : hasTypingId l domId = false) : removeTypingIndicator l domId = l := by
  induction l with
  | nil => rfl
  | cons e rest ih =>
      simp only [hasTypingId, List.any_cons, Bool.or_eq_false_iff] at h
      have hne : ¬ (isTypingId e domId = true) := by simp [h.1]
      simp only [removeTypingIndicator, if_neg hne]
      rw [ih h.2]

/-- Removal passes over an initial segment that does not carry the id. -/
theorem removeTypingIndicator_append_left {l l2 : List ChatEntry} {domId : String}
    (h : hasTypingId l domId = false) :
    removeTypingIndicator (l ++ l2) domId = l ++ removeTypingIndicator l2 domId := by
  induction l with
  | nil => rfl
  | cons e rest ih =>
      simp only [hasTypingId, List.any_cons, Bool.or_eq_false_iff] at h
      have hne : ¬ (isTypingId e domId = true) := by simp [h.1]
      simp only [List.cons_append, removeTypingIndicator, if_neg hne]
      exact congrArg (fun x => e :: x) (ih h.2)

/-- Typing indicators count additively over append. -/
theorem typingCount_append (l l2 : List ChatEntry) :
    typingCount (l ++ l2) = typingCount l + typingCount l2 := by
  simp [typingCount, List.countP_append]

/-- A singleton message contributes no typing indicator. -/
theorem typingCount_message (r : Role) (t : String) (s : List SourceJson) :
    typingCount [ChatEntry.message r t s] = 0 := rfl

/-- A singleton typing indicator counts one. -/
theorem typingCount_typing (i : String) : typingCount [ChatEntry.typing i] = 1 := rfl

/-- Appending a non-typing entry keeps a clean container free of ids. -/
theorem hasTypingId_clean_append {l : List ChatEntry} {domId : String}
    (h : typingCount l = 0) (e : ChatEntry) (he : isTyping e = false) :
    hasTypingId (l ++ [e]) domId = false := by
  apply hasTypingId_false_of_typingCount_zero
  rw [typingCount_append, h]
  have h2 : typingCount [e] = 0 := by
    simp [typingCount, List.countP_cons, List.countP_nil, he]
  rw [h2]

/-- Removing the freshly inserted indicator from a clean container strips
exactly that indicator. -/
theorem removeTyping_start {l : List ChatEntry} {domId : String}
    (h : typingCount l = 0) (e : ChatEntry) (he : isTyping e = false) :
    removeTypingIndicator ((l ++ [e]) ++ [ChatEntry.typing domId]) domId = l ++ [e] := by
  rw [removeTypingIndicator_append_left (hasTypingId_clean_append h e he)]
  simp [removeTypingIndicator, isTypingId]

/-- A failing guard is impossible with a nonempty trimmed input and a ready
system. -/
theorem guardHolds {st : RAGState} (hmsg : ¬ jsTrim st.userInputValue = "")
    (hready : st.isSystemReady = true) :
    ¬(jsTrim st.userInputValue = "" ∨ st.isSystemReady = false) := by
  intro hor
  rcases hor with h | h
  · exact hmsg h
  · rw [hready] at h
    exact absurd h (by decide)

/-- The explicit successor state of a guard-passing sendMessage before the
query settles. -/
theorem sendMessageStart_eq (st : RAGState) (typingId : String)
    (hguard : ¬(jsTrim st.userInputValue = "" ∨ st.isSystemReady = false)) :
    sendMessageStart st typingId = some
      { st with
        welcomeVisible := false,
        chatMessages :=
          (addTypingIndicator
            (addMessage st.chatMessages Role.user (jsTrim st.userInputValue) []) typingId),
        userInputValue := "",
        sendBtnDisabled := true,
        queriesSent := st.queriesSent ++ [jsTrim st.userInputValue] } := by
  simp only [sendMessageStart]
  rw [if_neg hguard]

/-- C2: with an empty or whitespace-only input, or with the system not
ready, sendMessage is a no-op: the whole controller state, the message
container and the log of issued query requests are returned unchanged. -/
theorem c2_send_message_guard_noop (st : RAGState) (typingId : String) (res : QueryResponse)
    (h : jsTrim st.userInputValue = "" ∨ st.isSystemReady = false) :
    sendMessage st typingId res = st := by
  simp only [sendMessage, sendMessageStart]
  rw [if_pos h]
  rfl

/-- C2 witness: the guard fires on a concrete whitespace-only input. -/
theorem c2_witness :
    (jsTrim c2Pre.userInputValue = "" ∨ c2Pre.isSystemReady = false) ∧
    sendMessage c2Pre ("typing-1") QueryResponse.transportError = c2Pre :=
  ⟨Or.inl (by decide),
   c2_send_message_guard_noop c2Pre ("typing-1") QueryResponse.transportError
     (Or.inl (by decide))⟩

/-- C3: a guard-passing turn inserts exactly one typing indicator, and on
every completion path (success, backend-reported failure, transport error)
the indicator is removed, so a chat history that starts without indicators
ends the turn without indicators. -/
theorem c3_typing_placeholder_lifecycle (st : RAGState) (typingId : String)
    (res : QueryResponse) (hmsg : ¬ jsTrim st.userInputValue = "")
    (hready : st.isSystemReady = true) (hclean : typingCount st.chatMessages = 0) :
    (∃ st1, sendMessageStart st typingId = some st1 ∧ typingCount st1.chatMessages = 1) ∧
    typingCount (sendMessage st typingId res).chatMessages = 0 := by
  have hguard := guardHolds hmsg hready
  have hstart := sendMessageStart_eq st typingId hguard
  constructor
  · refine ⟨_, hstart, ?_⟩
    simp only [addTypingIndicator, addMessage]
    rw [typingCount_append, typingCount_append, hclean, typingCount_message,
      typingCount_typing]
  · simp only [sendMessage]
    rw [hstart]
    simp only [Option.elim]
    cases res with
    | success answer sources =>
        simp only [sendMessageComplete, addMessage, addTypingIndicator]
        rw [removeTyping_start hclean _ (by rfl)]
        rw [typingCount_append, typingCount_append, hclean, typingCount_message,
          typingCount_message]
    | failure m =>
        simp only [sendMessageComplete, addMessage, addTypingIndicator]
        rw [removeTyping_start hclean _ (by rfl)]
        rw [removeTypingIndicator_noop (hasTypingId_clean_append hclean _ (by rfl))]
        rw [typingCount_append, typingCount_append, hclean, typingCount_message,
          typingCount_message]
    | transportError =>
        simp only [sendMessageComplete, addMessage, addTypingIndicator]
        rw [removeTyping_start hclean _ (by rfl)]
        rw [typingCount_append, typingCount_append, hclean, typingCount_message,
          typingCount_message]

/-- C3 witness: a concrete guard-passing turn with a success response. -/
theorem c3_witness :
    ((¬ jsTrim c3Pre.userInputValue = "") ∧ c3Pre.isSystemReady = true ∧
      typingCount c3Pre.chatMessages = 0) ∧
    ((∃ st1, sendMessageStart c3Pre ("t1") = some st1 ∧
        typingCount st1.chatMessages = 1) ∧
      typingCount (sendMessage c3Pre ("t1") (QueryResponse.success ("ok") [])).chatMessages
        = 0) :=
  ⟨⟨by decide, by decide, by decide⟩,
   c3_typing_placeholder_lifecycle c3Pre ("t1") (QueryResponse.success ("ok") [])
     (by decide) (by decide) (by decide)⟩

/-- C4 counterexample: a concrete guard-passing turn that ends with a
backend-reported failure leaves the send button disabled at the end of the
turn: sendMessage contains no re-enabling assignment, so submission is not
re-enabled when the turn completes. -/
theorem c4_counterexample :
    (¬ sendMessageStart c4Pre ("typing-1") = none) ∧
    (sendMessage c4Pre ("typing-1") (QueryResponse.failure (some ("x")))).sendBtnDisabled
      = true := by
  decide

/-- C4 (amended): for a guard-passing turn the send button is disabled from
the start of the turn and is still disabled at its completion on every
outcome; readiness is untouched, and submission becomes enabled again only
through the next input event with a nonempty trimmed value.  On a
backend-reported failure the turn ends with the user message followed by
one apology assistant message with zero sources. -/
theorem c4_submission_reenable (st : RAGState) (typingId : String) (res : QueryResponse)
    (v : String) (hmsg : ¬ jsTrim st.userInputValue = "")
    (hready : st.isSystemReady = true) (hclean : typingCount st.chatMessages = 0) :
    (∀ st1, sendMessageStart st typingId = some st1 → st1.sendBtnDisabled = true) ∧
    (sendMessage st typingId res).sendBtnDisabled = true ∧
    (sendMessage st typingId res).isSystemReady = true ∧
    (¬ jsTrim v = "" →
      (handleInputEvent (sendMessage st typingId res) v).sendBtnDisabled = false) ∧
    (∀ m, res = QueryResponse.failure m →
      (sendMessage st typingId res).chatMessages =
        st.chatMessages ++
          [ChatEntry.message Role.user (formatMessageContent (jsTrim st.userInputValue)) [],
           ChatEntry.message Role.assistant (formatMessageContent apologyText) []]) := by
  have hguard := guardHolds hmsg hready
  have hstart := sendMessageStart_eq st typingId hguard
  have hdis : (sendMessage st typingId res).sendBtnDisabled = true := by
    simp only [sendMessage]
    rw [hstart]
    simp only [Option.elim]
    cases res <;> rfl
  have hrdy : (sendMessage st typingId res).isSystemReady = true := by
    simp only [sendMessage]
    rw [hstart]
    simp only [Option.elim]
    cases res <;> exact hready
  refine ⟨?_, hdis, hrdy, ?_, ?_⟩
  · intro st1 h1
    rw [hstart] at h1
    injection h1 with h2
    rw [← h2]
  · intro hv
    simp only [handleInputEvent]
    rw [if_neg]
    intro hor
    rcases hor with h0 | h0
    · exact hv h0
    · rw [hrdy] at h0
      exact absurd h0 (by decide)
  · intro m hres
    subst hres
    simp only [sendMessage]
    rw [hstart]
    simp only [Option.elim, sendMessageComplete, addMessage, addTypingIndicator]
    rw [removeTyping_start hclean _ (by rfl)]
    rw [removeTypingIndicator_noop (hasTypingId_clean_append hclean _ (by rfl))]
    rw [List.append_assoc]
    rfl

/-- C4 witness: the amended theorem applied at a concrete failing turn. -/
theorem c4_witness :
    ((¬ jsTrim c3Pre.userInputValue = "") ∧ c3Pre.isSystemReady = true ∧
      typingCount c3Pre.chatMessages = 0 ∧ (¬ jsTrim ("next") = "")) ∧
    ((sendMessage c3Pre ("t2") (QueryResponse.failure (some ("x")))).sendBtnDisabled
        = true ∧
      (handleInputEvent (sendMessage c3Pre ("t2") (QueryResponse.failure (some ("x"))))
          ("next")).sendBtnDisabled = false) :=
  ⟨⟨by decide, by decide, by decide, by decide⟩,
   ⟨(c4_submission_reenable c3Pre ("t2") (QueryResponse.failure (some ("x"))) ("next")
       (by decide) (by decide) (by decide)).2.1,
    (c4_submission_reenable c3Pre ("t2") (QueryResponse.failure (some ("x"))) ("next")
       (by decide) (by decide) (by decide)).2.2.2.1 (by decide)⟩⟩

/-- Zero count of an id is the same as its absence. -/
theorem typingIdCount_zero_iff {l : List ChatEntry} {domId : String} :
    typingIdCount l domId = 0 ↔ hasTypingId l domId = false := by
  simp [typingIdCount, hasTypingId, List.countP_eq_zero, List.any_eq_false]

/-- Removing an id that occurs exactly once removes exactly one entry, and
a second removal is a no-op. -/
theorem removeTyping_once {l : List ChatEntry} {domId : String}
    (h : typingIdCount l domId = 1) :
    typingIdCount (removeTypingIndicator l domId) domId = 0 ∧
    removeTypingIndicator (removeTypingIndicator l domId) domId =
      removeTypingIndicator l domId ∧
    (removeTypingIndicator l domId).length + 1 = l.length := by
  induction l with
  | nil => simp [typingIdCount] at h
  | cons e rest ih =>
      by_cases he : isTypingId e domId = true
      · have hrest : typingIdCount rest domId = 0 := by
          simp [typingIdCount, List.countP_cons, he] at h
          simpa [typingIdCount] using h
        have hhas : hasTypingId rest domId = false := typingIdCount_zero_iff.mp hrest
        simp only [removeTypingIndicator, if_pos he]
        exact ⟨hrest, removeTypingIndicator_noop hhas, rfl⟩
      · have he2 : isTypingId e domId = false := by
          revert he; cases isTypingId e domId <;> simp
        have hrest : typingIdCount rest domId = 1 := by
          simpa [typingIdCount, List.countP_cons, he2] using h
        obtain ⟨ih1, ih2, ih3⟩ := ih hrest
        simp only [removeTypingIndicator, if_neg he]
        refine ⟨?_, ?_, ?_⟩
        · simpa [typingIdCount, List.countP_cons, he2] using ih1
        · exact congrArg (fun x => e :: x) ih2
        · simp only [List.length_cons]
          omega

/-- C10: removeTypingIndicator is total and idempotent at the interface:
an id with no present indicator removes nothing, and when the id occurs
exactly once (as within one turn) a repeated removal still removes exactly
one entry in total. -/
theorem c10_remove_typing_total (l : List ChatEntry) (domId : String) :
    (hasTypingId l domId = false → removeTypingIndicator l domId = l) ∧
    (typingIdCount l domId = 1 →
      typingIdCount (removeTypingIndicator l domId) domId = 0 ∧
      removeTypingIndicator (removeTypingIndicator l domId) domId =
        removeTypingIndicator l domId ∧
      (removeTypingIndicator l domId).length + 1 = l.length) :=
  ⟨fun h => removeTypingIndicator_noop h, fun h => removeTyping_once h⟩

/-- C10 witness: both conjuncts applied at a concrete container. -/
theorem c10_witness :
    (hasTypingId c10List ("absent") = false ∧ typingIdCount c10List ("t1") = 1) ∧
    (removeTypingIndicator c10List ("absent") = c10List ∧
      (typingIdCount (removeTypingIndicator c10List ("t1")) ("t1") = 0 ∧
        removeTypingIndicator (removeTypingIndicator c10List ("t1")) ("t1") =
          removeTypingIndicator c10List ("t1") ∧
        (removeTypingIndicator c10List ("t1")).length + 1 = c10List.length)) :=
  ⟨⟨by decide, by decide⟩,
   ⟨(c10_remove_typing_total c10List ("absent")).1 (by decide),
    (c10_remove_typing_total c10List ("t1")).2 (by decide)⟩⟩

/-- C6: the readiness monitor leaves readiness and the send button alone on
a non-ready response while re-arming exactly one retry with the fixed 2000
millisecond delay; a ready response sets readiness, enables submission and
schedules nothing; in the concrete run whose status endpoint answers
non-ready and then ready, submission is enabled only after the second
response. -/
theorem c6_readiness_monitor :
    (∀ (st : RAGState) (m : Option String),
      (checkSystemStatus st (StatusResponse.notReady m)).1.isSystemReady =
        st.isSystemReady ∧
      (checkSystemStatus st (StatusResponse.notReady m)).1.sendBtnDisabled =
        st.sendBtnDisabled ∧
      (checkSystemStatus st (StatusResponse.notReady m)).2 = some 2000) ∧
    (∀ st : RAGState,
      (checkSystemStatus st StatusResponse.ready).1.isSystemReady = true ∧
      (checkSystemStatus st StatusResponse.ready).1.sendBtnDisabled = false ∧
      (checkSystemStatus st StatusResponse.ready).2 = none) ∧
    (c6Step1.1.isSystemReady = false ∧ c6Step1.1.sendBtnDisabled = true ∧
      c6Step1.2 = some 2000 ∧
      (checkSystemStatus c6Step1.1 StatusResponse.ready).1.isSystemReady = true ∧
      (checkSystemStatus c6Step1.1 StatusResponse.ready).1.sendBtnDisabled = false ∧
      (checkSystemStatus c6Step1.1 StatusResponse.ready).2 = none) :=
  ⟨fun _ _ => ⟨rfl, rfl, rfl⟩, fun _ => ⟨rfl, rfl, rfl⟩, by decide⟩

/-- C8 counterexample: in the strict variant a transport failure of
loadDocuments zeroes the stats but keeps the stale document list and its
rendering while pushing no notification, so neither of the two policies
asserted by the claim holds. -/
theorem c8_counterexample :
    ¬ claimC8Policy c8Pre (loadDocuments c8Pre DocsResponse.transportError) := by
  unfold claimC8Policy
  decide

/-- C8 (amended): on a loadDocuments failure the strict variant only zeroes
the stats, leaving the document list, its rendering and the toasts exactly
as they were (a silently stale catalog); the demo variant instead replaces
the catalog with the locally generated demo documents, re-renders, and
zeroes the stats. -/
theorem c8_failure_policy (st : RAGState) :
    loadDocuments st DocsResponse.transportError =
      { st with chunksCount := 0, embeddingsCount := 0 } ∧
    (loadDocumentsDemo st DocsResponse.transportError).documents = getDemoDocuments ∧
    (loadDocumentsDemo st DocsResponse.transportError).chunksCount = 0 ∧
    (loadDocumentsDemo st DocsResponse.transportError).embeddingsCount = 0 ∧
    (loadDocumentsDemo st DocsResponse.transportError).rendering =
      ListRendering.items getDemoDocuments ∧
    (loadDocumentsDemo st DocsResponse.transportError).toasts = st.toasts :=
  ⟨rfl, rfl, rfl, rfl, rfl, rfl⟩

/-- C9: after a successful fetch the catalog holds exactly the fetched
documents, the count label is the length with the plural s exactly when the
length is not one, and a zero-length catalog renders the fixed empty state
while a nonempty one renders the document items. -/
theorem c9_catalog_success (st : RAGState) (docs : List Doc) (stats : Option StatsPayload) :
    (loadDocuments st (DocsResponse.success (some docs) stats)).documents = docs ∧
    (loadDocuments st (DocsResponse.success (some docs) stats)).documents.length =
      docs.length ∧
    (loadDocuments st (DocsResponse.success (some docs) stats)).docCountText =
      toString docs.length ++ " Document" ++ (if docs.length = 1 then ("") else ("s")) ∧
    (loadDocuments st (DocsResponse.success (some docs) stats)).rendering =
      (if docs.length = 0 then ListRendering.emptyState else ListRendering.items docs) := by
  have hdocs : (loadDocuments st (DocsResponse.success (some docs) stats)).documents
      = docs := by
    cases stats <;> rfl
  have hlabel : (loadDocuments st (DocsResponse.success (some docs) stats)).docCountText =
      toString docs.length ++ " Document" ++ (if docs.length ≠ 1 then ("s") else ("")) := by
    cases stats <;> rfl
  have hrender : (loadDocuments st (DocsResponse.success (some docs) stats)).rendering =
      (if docs.length = 0 then ListRendering.emptyState else ListRendering.items docs) := by
    cases stats <;> rfl
  refine ⟨hdocs, by rw [hdocs], ?_, hrender⟩
  rw [hlabel]
  by_cases h1 : docs.length = 1
  · simp [h1]
  · simp [h1]

end RAGApp
